import Mathlib

/-!
Verification of the OtakuConcerts server (`src/server.py`) against its
natural-language specification.

This file shallowly embeds the request handlers of `handle_client` in
`server.py`: the SQLite tables become lists of records, each handler
becomes a function from the database state (and the request's fields) to
the new database state together with the outcome observable on the wire.

Conventions of the embedding:
* `users`, `events`, `purchases` model the three SQLite tables; row order
  models SQLite row order (`fetchone` takes the first matching row,
  `INSERT` appends, `UPDATE ... WHERE id = ?` rewrites every matching row).
* `nextId` models the `AUTOINCREMENT` counter of the `users` table.
* User points and inventory counters are `Int` (the SQLite columns are
  signed integers and, as proved below, inventory can in fact go
  negative); ticket prices are `Nat` (the data model fixes them as
  positive integers and no handler ever writes them).
* Python's `int(ticket_cost * 0.9)` is embedded as `ticket_cost * 9 / 10`
  in `Nat`: for every non-negative integer in the range reachable here the
  double-precision product `ticket_cost * 0.9` truncates to exactly
  `⌊9·ticket_cost/10⌋`.
* A handler that raises a Python exception is modelled by the outcome
  `raised`; a handler that returns without sending anything (such as
  `check_points` for an unknown user, which has no `else` branch) is
  modelled by the outcome `silent`.
-/

/-- A row of the `users` table. -/
structure User where
  id : Nat
  username : String
  password : String
  points : Int
  deriving DecidableEq, Repr

/-- A row of the `events` table. -/
structure Event where
  id : Nat
  name : String
  available_tickets : Int
  vip_tickets : Int
  regular_cost : Nat
  vip_cost : Nat
  deriving DecidableEq, Repr

/-- A row of the `purchases` table (the autoincremented `id` and the
store-assigned `purchase_date` carry no information used by any claim and
are omitted). -/
structure Purchase where
  user_id : Nat
  event_id : Nat
  ticket_type : String
  deriving DecidableEq, Repr

/-- The fields of an `add_funds` request relevant to the handler.  The
JSON record may carry both a `user_id` key (the name used by the spec's
interface table) and a `userid` key (the name `server.py` actually reads
via `request.get("userid")`); a missing key yields `none`, matching
`dict.get` returning `None`. -/
structure AddFundsReq where
  user_id : Option Nat := none
  userid : Option Nat := none
  amount : Option Int := none
  deriving DecidableEq, Repr

/-- The whole mutable database state. -/
structure DB where
  users : List User
  events : List Event
  purchases : List Purchase
  nextId : Nat
  deriving DecidableEq, Repr

/-- The structured content of one JSON response line sent by the server. -/
inductive Resp where
  | registered
  | duplicateUsername
  | notEnoughPoints
  | vipSoldOut
  | regularSoldOut
  | purchased (ticket_type : String) (charged : Nat)
  | pointsBalance (points : Int)
  | invalidAmount
  | addedFunds (amount : Int) (userid : Option Nat)
  | genericError
  deriving DecidableEq, Repr

/-- What one handler invocation does on the wire: it sends one response,
returns without sending anything, or raises a Python exception (which the
worker's `except` branch then observes). -/
inductive Outcome where
  | resp (r : Resp)
  | silent
  | raised
  deriving DecidableEq, Repr

/-- `SELECT ... FROM users WHERE id = ?` followed by `fetchone()`. -/
def findUser (db : DB) (uid : Nat) : Option User :=
  db.users.find? (fun w => w.id == uid)

/-- `SELECT ... FROM events WHERE id = ?` followed by `fetchone()`. -/
def findEvent (db : DB) (eid : Nat) : Option Event :=
  db.events.find? (fun e => e.id == eid)

/-- `SELECT COUNT(*) FROM purchases WHERE user_id = ?`. -/
def priorCount (db : DB) (uid : Nat) : Nat :=
  (db.purchases.filter (fun p => p.user_id == uid)).length

/-- `ticket_cost = vip_cost if ticket_type == "VIP" else regular_cost`. -/
def nominalCost (e : Event) (ticket_type : String) : Nat :=
  if ticket_type = "VIP" then e.vip_cost else e.regular_cost

/-- `if purchase_count >= 3: ticket_cost = int(ticket_cost * 0.9)`. -/
def discount (purchase_count : Nat) (cost : Nat) : Nat :=
  if 3 ≤ purchase_count then cost * 9 / 10 else cost

/-- The cost the purchase handler computes before the guard checks. -/
def chargedCost (db : DB) (uid : Nat) (e : Event) (ticket_type : String) : Nat :=
  discount (priorCount db uid) (nominalCost e ticket_type)

/-- The three `UPDATE`/`INSERT` statements of the success branch of
`purchase_ticket`, committed together by the single `conn.commit()`:
debit the points, decrement the matching tier's counter, append the
purchase row. -/
def applyPurchase (db : DB) (uid eid : Nat) (ticket_type : String) (cost : Nat) : DB :=
  { db with
    users := db.users.map (fun w =>
      if w.id = uid then { w with points := w.points - (cost : Int) } else w),
    events := db.events.map (fun e =>
      if e.id = eid then
        if ticket_type = "VIP" then { e with vip_tickets := e.vip_tickets - 1 }
        else { e with available_tickets := e.available_tickets - 1 }
      else e),
    purchases := db.purchases ++ [{ user_id := uid, event_id := eid, ticket_type := ticket_type }] }

/-- The `purchase_ticket` branch of `handle_client`.  Note that when the
user or event lookup misses, the `if user and event:` block has no `else`
and the handler sends nothing. -/
def purchaseTicket (db : DB) (uid eid : Nat) (ticket_type : String) : DB × Outcome :=
  match findUser db uid, findEvent db eid with
  | some u, some e =>
    let cost := chargedCost db uid e ticket_type
    if (cost : Int) > u.points then (db, .resp .notEnoughPoints)
    else if ticket_type = "VIP" ∧ e.vip_tickets ≤ 0 then (db, .resp .vipSoldOut)
    else if ticket_type = "Regular" ∧ e.available_tickets ≤ 0 then (db, .resp .regularSoldOut)
    else (applyPurchase db uid eid ticket_type cost, .resp (.purchased ticket_type cost))
  | _, _ => (db, .silent)

/-- The `register` branch: `INSERT INTO users (username, password)`; the
`UNIQUE` constraint on `username` raises `IntegrityError` exactly when a
row with that username already exists, which the handler converts into the
duplicate-username error response. -/
def register (db : DB) (uname pw : String) : DB × Outcome :=
  if db.users.any (fun w => w.username == uname) then (db, .resp .duplicateUsername)
  else ({ db with
          users := db.users ++ [{ id := db.nextId, username := uname, password := pw, points := 100 }],
          nextId := db.nextId + 1 },
        .resp .registered)

/-- The `check_points` branch: `if user:` sends the balance; there is no
`else`, so an unknown `user_id` produces no response at all. -/
def checkPoints (db : DB) (uid : Nat) : DB × Outcome :=
  match findUser db uid with
  | some u => (db, .resp (.pointsBalance u.points))
  | none => (db, .silent)

/-- `UPDATE users SET points = points + ? WHERE id = ?`; binding `None`
for the id (`WHERE id = NULL`) matches no row. -/
def creditUser (db : DB) (target : Option Nat) (amount : Int) : DB :=
  match target with
  | none => db
  | some uid =>
    { db with users := db.users.map (fun w =>
        if w.id = uid then { w with points := w.points + amount } else w) }

/-- The `add_funds` branch: it reads `request.get("userid")` (not
`user_id`) and `request.get("amount")`; `None <= 0` raises `TypeError`
when `amount` is absent. -/
def addFunds (db : DB) (req : AddFundsReq) : DB × Outcome :=
  match req.amount with
  | none => (db, .raised)
  | some a =>
    if a ≤ 0 then (db, .resp .invalidAmount)
    else (creditUser db req.userid a, .resp (.addedFunds a req.userid))

/-- One decoded request, with the fields each handler reads. -/
inductive Op where
  | register (username password : String)
  | purchase (user_id event_id : Nat) (ticket_type : String)
  | checkPoints (user_id : Nat)
  | addFunds (req : AddFundsReq)
  deriving DecidableEq, Repr

/-- Dispatch of one decoded request to its handler. -/
def stepOp (db : DB) : Op → DB × Outcome
  | .register uname pw => register db uname pw
  | .purchase uid eid tt => purchaseTicket db uid eid tt
  | .checkPoints uid => checkPoints db uid
  | .addFunds req => addFunds db req

/-- Run a sequence of requests against the shared store, recording each
request together with its outcome. -/
def runTrace (db : DB) : List Op → List (Op × Outcome) × DB
  | [] => ([], db)
  | op :: ops =>
    let s := stepOp db op
    let r := runTrace s.1 ops
    ((op, s.2) :: r.1, r.2)

/-- What one iteration of the worker loop receives from the socket:
end-of-stream, a payload `json.loads` cannot decode, or a decoded
request. -/
inductive Incoming where
  | disconnect
  | malformed
  | request (op : Op)
  deriving DecidableEq, Repr

/-- One iteration of the `while True` loop of `handle_client`: the
returned boolean is whether the loop continues.  Empty data breaks the
loop; a decode failure or a handler exception lands in the `except`
branch, which sends the generic error record and then `break`s. -/
def workerStep (db : DB) : Incoming → DB × List Resp × Bool
  | .disconnect => (db, [], false)
  | .malformed => (db, [.genericError], false)
  | .request op =>
    match stepOp db op with
    | (db1, .resp r) => (db1, [r], true)
    | (db1, .silent) => (db1, [], true)
    | (db1, .raised) => (db1, [.genericError], false)

/-- A single-quote character, as a string. -/
def sqt : String := String.singleton (Char.ofNat 39)

/-- The SQL text the `login` branch builds by f-string interpolation:
`f"SELECT id, points FROM users WHERE username = '{username}' AND password = '{password}'"`. -/
def loginQuery (username password : String) : String :=
  "SELECT id, points FROM users WHERE username = " ++ sqt ++ username ++ sqt ++
    " AND password = " ++ sqt ++ password ++ sqt

/-! ### Concrete states used by witnesses and counterexamples -/

/-- A registered user with the default 100 points. -/
def userA : User := { id := 1, username := "alice", password := "pw", points := 100 }

/-- The first seeded event of `server.py`. -/
def eventA : Event :=
  { id := 1, name := "LiSA Live Concert", available_tickets := 50, vip_tickets := 10,
    regular_cost := 40, vip_cost := 80 }

/-- One user, one event, no purchases yet. -/
def dbA : DB := { users := [userA], events := [eventA], purchases := [], nextId := 2 }

/-- A user who already holds three recorded purchases. -/
def userB : User := { id := 1, username := "bob", password := "pw", points := 200 }

/-- State for the loyalty-discount witness: three prior purchases. -/
def dbB : DB :=
  { users := [userB], events := [eventA],
    purchases := [{ user_id := 1, event_id := 1, ticket_type := "Regular" },
                  { user_id := 1, event_id := 1, ticket_type := "Regular" },
                  { user_id := 1, event_id := 1, ticket_type := "Regular" }],
    nextId := 2 }

/-- A user too poor for any ticket of `eventC`. -/
def userC : User := { id := 1, username := "carol", password := "pw", points := 10 }

/-- An event whose VIP tier is sold out. -/
def eventC : Event :=
  { id := 1, name := "Sold Out Night", available_tickets := 5, vip_tickets := 0,
    regular_cost := 40, vip_cost := 80 }

/-- Sold-out VIP tier and a poor user. -/
def dbC : DB := { users := [userC], events := [eventC], purchases := [], nextId := 2 }

/-- A rich user facing the sold-out VIP tier. -/
def userD : User := { id := 1, username := "dana", password := "pw", points := 1000 }

/-- Sold-out VIP tier and a rich user. -/
def dbD : DB := { users := [userD], events := [eventC], purchases := [], nextId := 2 }

/-- An `add_funds` request carrying the spec's `user_id` key (and an
`amount`) but no `userid` key. -/
def reqE : AddFundsReq := { user_id := some 1, amount := some 5 }

/-- An event with an empty regular tier. -/
def eventF : Event :=
  { id := 1, name := "Regular Gone", available_tickets := 0, vip_tickets := 5,
    regular_cost := 10, vip_cost := 20 }

/-- Empty regular tier, solvent user.  A request whose ticket type is the
lower-case string falls through both sold-out guards. -/
def dbF : DB :=
  { users := [{ id := 1, username := "frank", password := "pw", points := 100 }],
    events := [eventF], purchases := [], nextId := 2 }

/-- Another empty regular tier for the inventory counterexample. -/
def eventH : Event :=
  { id := 1, name := "Last Seat Gone", available_tickets := 0, vip_tickets := 3,
    regular_cost := 15, vip_cost := 30 }

/-- State from which an unvalidated ticket type drives inventory negative. -/
def dbH : DB :=
  { users := [{ id := 1, username := "hana", password := "pw", points := 100 }],
    events := [eventH], purchases := [], nextId := 2 }

/-- An event with stock in both tiers, used by run witnesses. -/
def eventG : Event :=
  { id := 1, name := "Open Show", available_tickets := 5, vip_tickets := 5,
    regular_cost := 10, vip_cost := 20 }

/-- A solvent user and an event with stock in both tiers. -/
def dbG : DB :=
  { users := [{ id := 1, username := "gia", password := "pw", points := 100 }],
    events := [eventG], purchases := [], nextId := 2 }

/-! ### Claims C1, C2, C3 : the purchase handler -/

/-- Claim C1: when the user and event exist and all three guard checks
pass, `purchase_ticket` performs exactly three state effects together —
it debits the charged cost from the user's points, decrements the
requested tier's counter (`vip_tickets` for VIP, `available_tickets`
otherwise) by exactly 1, and appends exactly one purchase row — and the
success response carries the price actually charged; when any guard
fails, the state is completely unchanged and the response is one of the
three guard errors. -/
theorem purchase_guard_pass_atomic (db : DB) (uid eid : Nat) (tt : String)
    (u : User) (e : Event)
    (hu : findUser db uid = some u) (he : findEvent db eid = some e) :
    (¬ ((chargedCost db uid e tt : Int) > u.points) →
      ¬ (tt = "VIP" ∧ e.vip_tickets ≤ 0) →
      ¬ (tt = "Regular" ∧ e.available_tickets ≤ 0) →
      purchaseTicket db uid eid tt =
        ({ db with
            users := db.users.map (fun w =>
              if w.id = uid then
                { w with points := w.points - (chargedCost db uid e tt : Int) } else w),
            events := db.events.map (fun ev =>
              if ev.id = eid then
                if tt = "VIP" then { ev with vip_tickets := ev.vip_tickets - 1 }
                else { ev with available_tickets := ev.available_tickets - 1 }
              else ev),
            purchases := db.purchases ++ [{ user_id := uid, event_id := eid, ticket_type := tt }] },
         .resp (.purchased tt (chargedCost db uid e tt))))
    ∧ (((chargedCost db uid e tt : Int) > u.points ∨ (tt = "VIP" ∧ e.vip_tickets ≤ 0) ∨
        (tt = "Regular" ∧ e.available_tickets ≤ 0)) →
      (purchaseTicket db uid eid tt).1 = db ∧
        ((purchaseTicket db uid eid tt).2 = .resp .notEnoughPoints ∨
         (purchaseTicket db uid eid tt).2 = .resp .vipSoldOut ∨
         (purchaseTicket db uid eid tt).2 = .resp .regularSoldOut)) := by
  simp only [purchaseTicket, hu, he]
  constructor
  · intro h1 h2 h3
    rw [if_neg h1, if_neg h2, if_neg h3]
    rfl
  · intro hfail
    by_cases h1 : (chargedCost db uid e tt : Int) > u.points
    · simp [if_pos h1]
    · by_cases h2 : tt = "VIP" ∧ e.vip_tickets ≤ 0
      · simp [if_neg h1, if_pos h2]
      · by_cases h3 : tt = "Regular" ∧ e.available_tickets ≤ 0
        · simp [if_neg h1, if_neg h2, if_pos h3]
        · exact absurd hfail (by simp [h1, h2, h3])

/-- Witness for C1 at a concrete state: all guards pass, the three
effects happen together and the response carries the charged price. -/
theorem purchase_guard_pass_atomic_witness :
    purchaseTicket dbA 1 1 "Regular" =
      ({ users := [{ id := 1, username := "alice", password := "pw", points := 60 }],
         events := [{ id := 1, name := "LiSA Live Concert", available_tickets := 49,
                      vip_tickets := 10, regular_cost := 40, vip_cost := 80 }],
         purchases := [{ user_id := 1, event_id := 1, ticket_type := "Regular" }],
         nextId := 2 }, .resp (.purchased "Regular" 40)) := by
  have h := (purchase_guard_pass_atomic dbA 1 1 "Regular" userA eventA rfl rfl).1
    (by decide) (by decide) (by decide)
  rw [h]; decide

/-- Claim C2: whenever the purchase handler reports success, the charged
price is `⌊0.9 · nominal⌋` when the user already has at least 3 recorded
purchases and the full nominal price otherwise, the nominal price being
the VIP price exactly when the requested ticket type is `"VIP"`. -/
theorem loyalty_discount_charged (db : DB) (uid eid : Nat) (tt : String)
    (u : User) (e : Event)
    (hu : findUser db uid = some u) (he : findEvent db eid = some e)
    (c : Nat) (hsucc : (purchaseTicket db uid eid tt).2 = .resp (.purchased tt c)) :
    c = (if 3 ≤ priorCount db uid then nominalCost e tt * 9 / 10 else nominalCost e tt) := by
  simp only [purchaseTicket, hu, he] at hsucc
  by_cases h1 : (chargedCost db uid e tt : Int) > u.points
  · rw [if_pos h1] at hsucc; exact absurd hsucc (by simp)
  · rw [if_neg h1] at hsucc
    by_cases h2 : tt = "VIP" ∧ e.vip_tickets ≤ 0
    · rw [if_pos h2] at hsucc; exact absurd hsucc (by simp)
    · rw [if_neg h2] at hsucc
      by_cases h3 : tt = "Regular" ∧ e.available_tickets ≤ 0
      · rw [if_pos h3] at hsucc; exact absurd hsucc (by simp)
      · rw [if_neg h3] at hsucc
        have : c = chargedCost db uid e tt := by
          have := congrArg (fun o => match o with
            | Outcome.resp (Resp.purchased _ n) => n
            | _ => 0) hsucc
          simpa using this.symm
        rw [this]; rfl

/-- Witness for C2: regular cost 40, exactly 3 prior purchases, the 4th
Regular purchase charges 36 = ⌊40 · 0.9⌋. -/
theorem loyalty_discount_charged_witness :
    (purchaseTicket dbB 1 1 "Regular").2 = .resp (.purchased "Regular" 36) ∧
    (36 : Nat) = (if 3 ≤ priorCount dbB 1 then nominalCost eventA "Regular" * 9 / 10
                  else nominalCost eventA "Regular") :=
  ⟨by decide, loyalty_discount_charged dbB 1 1 "Regular" userB eventA rfl rfl 36 (by decide)⟩

/-- Counterexample to claim C3 as stated: with `vip_tickets = 0` and a
user whose points are below the (discounted) VIP cost, the response is
the insufficient-points error, not `SoldOut`. -/
theorem vip_soldout_claim_cex :
    findEvent dbC 1 = some eventC ∧ eventC.vip_tickets = 0 ∧
    (purchaseTicket dbC 1 1 "VIP").2 = .resp .notEnoughPoints ∧
    (purchaseTicket dbC 1 1 "VIP").2 ≠ .resp .vipSoldOut := by decide

/-- Claim C3 as amended: with `vip_tickets ≤ 0`, a VIP request is
answered `SoldOut` exactly when the discounted cost does not exceed the
user's points; when it does, the earlier insufficient-points guard wins. -/
theorem vip_soldout_after_points_guard (db : DB) (uid eid : Nat)
    (u : User) (e : Event)
    (hu : findUser db uid = some u) (he : findEvent db eid = some e)
    (hv : e.vip_tickets ≤ 0) :
    (purchaseTicket db uid eid "VIP").2 =
      (if (chargedCost db uid e "VIP" : Int) > u.points then .resp .notEnoughPoints
       else .resp .vipSoldOut) := by
  simp only [purchaseTicket, hu, he]
  by_cases h1 : (chargedCost db uid e "VIP" : Int) > u.points
  · simp [h1]
  · simp [h1, hv]

/-- Witness for amended C3: a rich user against the empty VIP tier gets
`SoldOut`. -/
theorem vip_soldout_after_points_guard_witness :
    (purchaseTicket dbD 1 1 "VIP").2 = .resp .vipSoldOut := by
  have h := vip_soldout_after_points_guard dbD 1 1 userD eventC rfl rfl (by decide)
  rw [h]; decide

/-! ### Claims C6, C7, C8, C9, C10 -/

/-- Claim C6, the string-built defect exhibited: the `login` branch
interpolates the raw credentials into the SQL text, so two different
credential pairs — one of them carrying quote metacharacters — produce
the *identical* query string.  Under parameterized binding the two pairs
are distinguishable by construction, so the code's lookup is not an exact
parameterized match. -/
theorem login_query_string_built :
    ("x" : String) ≠ "x" ++ sqt ++ " AND password = " ++ sqt ++ "y" ∧
    loginQuery "x" ("y" ++ sqt ++ " AND password = " ++ sqt ++ "z") =
      loginQuery ("x" ++ sqt ++ " AND password = " ++ sqt ++ "y") "z" := by
  exact ⟨by decide, rfl⟩

/-- Claim C7, the missing-user branch exhibited: `check_points` answers
with the balance when the user exists, but for an unknown `user_id` the
handler's `if user:` has no `else` and nothing at all is sent — not the
`UserNotFound` error the claim requires. -/
theorem checkPoints_missing_user_silent :
    (stepOp dbA (.checkPoints 1)).2 = .resp (.pointsBalance 100) ∧
    stepOp dbA (.checkPoints 42) = (dbA, .silent) := by decide

/-- Counterexample to claim C8 as stated: on a malformed payload the
worker does send an error record, but its `except` branch then `break`s —
the loop does not continue even though the connection is still usable. -/
theorem worker_malformed_halts_cex :
    workerStep dbA .malformed = (dbA, [.genericError], false) := by decide

/-- Claim C8 as amended: the worker loop continues exactly on payloads
that decode to a request whose handler does not raise; a malformed
payload (and likewise a raising handler) gets one generic error record
and then the connection is closed. -/
theorem worker_continue_iff_request_ok (db : DB) (inc : Incoming) :
    ((workerStep db inc).2.2 = true ↔
      ∃ op, inc = .request op ∧ (stepOp db op).2 ≠ .raised) ∧
    (inc = .malformed → workerStep db inc = (db, [.genericError], false)) := by
  cases inc with
  | disconnect => simp [workerStep]
  | malformed => simp [workerStep]
  | request op =>
    refine ⟨?_, by simp⟩
    rcases hs : stepOp db op with ⟨db1, out⟩
    cases out with
    | resp r => simp [workerStep, hs]
    | silent => simp [workerStep, hs]
    | raised => simp [workerStep, hs]

/-- Witness for amended C8: a well-formed request is processed and the
loop continues. -/
theorem worker_continue_iff_request_ok_witness :
    (workerStep dbA (.request (.checkPoints 1))).2.2 = true :=
  ((worker_continue_iff_request_ok dbA (.request (.checkPoints 1))).1).mpr
    ⟨.checkPoints 1, rfl, by decide⟩

/-- Counterexample to claim C9 as stated: an `add_funds` request carrying
the fields `user_id = 1` and `amount = 5` is answered with success, yet
no balance changes at all — the handler reads the `userid` key, which is
absent, and the update matches no row. -/
theorem addFunds_userid_field_cex :
    reqE.user_id = some 1 ∧ reqE.amount = some 5 ∧
    stepOp dbA (.addFunds reqE) = (dbA, .resp (.addedFunds 5 none)) := by decide

/-- Claim C9 as amended: with `amount ≤ 0` the handler returns the
invalid-amount error and the state is untouched; with `amount > 0` it
credits exactly `amount` to the users matching the request's `userid`
field (none when that key is absent) and reports success. -/
theorem addFunds_userid_semantics (db : DB) (req : AddFundsReq) (a : Int)
    (ha : req.amount = some a) :
    (a ≤ 0 → addFunds db req = (db, .resp .invalidAmount)) ∧
    (0 < a → addFunds db req = (creditUser db req.userid a, .resp (.addedFunds a req.userid))) := by
  constructor
  · intro h
    simp only [addFunds, ha]
    rw [if_pos h]
  · intro h
    simp only [addFunds, ha]
    rw [if_neg (by omega)]

/-- Witness for amended C9: a negative amount is rejected with the state
untouched. -/
theorem addFunds_userid_semantics_witness :
    addFunds dbA { userid := some 1, amount := some (-5) } = (dbA, .resp .invalidAmount) :=
  (addFunds_userid_semantics dbA { userid := some 1, amount := some (-5) } (-5) rfl).1
    (by decide)

/-- Counterexample to claim C10 as stated: with the regular tier sold
out, a genuine `"Regular"` request is refused, but the request whose
ticket type is the lower-case string is *not* processed like a Regular
purchase — it skips the sold-out check and succeeds. -/
theorem nonvip_as_regular_cex :
    (purchaseTicket dbF 1 1 "Regular").2 = .resp .regularSoldOut ∧
    (purchaseTicket dbF 1 1 "vip").2 = .resp (.purchased "vip" 10) := by decide

/-- Claim C10 as amended: any ticket type other than exactly `"VIP"` is
priced at the regular tier, debits and decrements `available_tickets`,
and is recorded verbatim in the purchase row; but the regular sold-out
guard fires only when the string is exactly `"Regular"` — every other
string bypasses it and the purchase succeeds even at zero inventory. -/
theorem nonvip_skips_soldout_check (db : DB) (uid eid : Nat) (tt : String)
    (u : User) (e : Event)
    (hu : findUser db uid = some u) (he : findEvent db eid = some e)
    (hv : tt ≠ "VIP") :
    ((discount (priorCount db uid) e.regular_cost : Int) > u.points →
      purchaseTicket db uid eid tt = (db, .resp .notEnoughPoints)) ∧
    (¬ ((discount (priorCount db uid) e.regular_cost : Int) > u.points) →
      tt = "Regular" → e.available_tickets ≤ 0 →
      purchaseTicket db uid eid tt = (db, .resp .regularSoldOut)) ∧
    (¬ ((discount (priorCount db uid) e.regular_cost : Int) > u.points) →
      (tt = "Regular" → 0 < e.available_tickets) →
      purchaseTicket db uid eid tt =
        ({ db with
            users := db.users.map (fun w =>
              if w.id = uid then
                { w with points := w.points - (discount (priorCount db uid) e.regular_cost : Int) }
              else w),
            events := db.events.map (fun ev =>
              if ev.id = eid then { ev with available_tickets := ev.available_tickets - 1 } else ev),
            purchases := db.purchases ++ [{ user_id := uid, event_id := eid, ticket_type := tt }] },
         .resp (.purchased tt (discount (priorCount db uid) e.regular_cost)))) := by
  have hc : chargedCost db uid e tt = discount (priorCount db uid) e.regular_cost := by
    unfold chargedCost nominalCost
    rw [if_neg hv]
  refine ⟨?_, ?_, ?_⟩
  · intro h1
    simp only [purchaseTicket, hu, he, hc]
    rw [if_pos h1]
  · intro h1 hr hz
    simp only [purchaseTicket, hu, he, hc]
    rw [if_neg h1, if_neg (by simp [hv]), if_pos ⟨hr, hz⟩]
  · intro h1 h2
    simp only [purchaseTicket, hu, he, hc]
    rw [if_neg h1, if_neg (by simp [hv]),
      if_neg (by rintro ⟨hr, hz⟩; exact absurd hz (by simpa using h2 hr))]
    simp [applyPurchase, hv]

/-- Witness for amended C10: the lower-case string is accepted, charged
at the regular price, decrements the regular counter and is stored
verbatim. -/
theorem nonvip_skips_soldout_check_witness :
    purchaseTicket dbG 1 1 "vip" =
      ({ users := [{ id := 1, username := "gia", password := "pw", points := 90 }],
         events := [{ id := 1, name := "Open Show", available_tickets := 4,
                      vip_tickets := 5, regular_cost := 10, vip_cost := 20 }],
         purchases := [{ user_id := 1, event_id := 1, ticket_type := "vip" }],
         nextId := 2 }, .resp (.purchased "vip" 10)) := by
  have h := (nonvip_skips_soldout_check dbG 1 1 "vip"
    { id := 1, username := "gia", password := "pw", points := 100 } eventG rfl rfl
    (by decide)).2.2 (by decide) (by intro h; exact absurd h (by decide))
  rw [h]; decide

/-! ### Claims C4, C5 : trace invariants -/

/-- Requests whose ticket type is one of the two documented tiers (every
non-purchase request vacuously qualifies). -/
def GoodTT : Op → Prop
  | .purchase _ _ tt => tt = "VIP" ∨ tt = "Regular"
  | _ => True

instance decGoodTT (op : Op) : Decidable (GoodTT op) :=
  match op with
  | .register _ _ => isTrue trivial
  | .purchase _ _ tt => inferInstanceAs (Decidable (tt = "VIP" ∨ tt = "Regular"))
  | .checkPoints _ => isTrue trivial
  | .addFunds _ => isTrue trivial

/-- Both inventory counters of every event row are non-negative. -/
def EventsOK (db : DB) : Prop :=
  ∀ e ∈ db.events, 0 ≤ e.available_tickets ∧ 0 ≤ e.vip_tickets

instance decEventsOK (db : DB) : Decidable (EventsOK db) :=
  inferInstanceAs (Decidable (∀ e ∈ db.events, 0 ≤ e.available_tickets ∧ 0 ≤ e.vip_tickets))

/-- The purchase success branch rewrites counters but never ids. -/
theorem applyPurchase_events_id (db : DB) (uid eid : Nat) (tt : String) (c : Nat) :
    (applyPurchase db uid eid tt c).events.map (fun e => e.id) =
      db.events.map (fun e => e.id) := by
  unfold applyPurchase
  simp only [List.map_map]
  apply List.map_congr_left
  intro ev _
  simp only [Function.comp_apply]
  by_cases hev : ev.id = eid
  · rw [if_pos hev]
    by_cases htt : tt = "VIP"
    · rw [if_pos htt]
    · rw [if_neg htt]
  · rw [if_neg hev]

/-- One handler invocation preserves non-negative inventory (given
primary-key-unique event ids and a documented ticket tier) and never
changes the list of event ids. -/
theorem step_inventory (db : DB) (op : Op)
    (hnd : (db.events.map (fun e => e.id)).Nodup)
    (hok : EventsOK db) (hop : GoodTT op) :
    EventsOK (stepOp db op).1 ∧
      (stepOp db op).1.events.map (fun e => e.id) = db.events.map (fun e => e.id) := by
  cases op with
  | register uname pw =>
    simp only [stepOp, register]
    split
    · exact ⟨hok, rfl⟩
    · exact ⟨hok, rfl⟩
  | checkPoints uid =>
    simp only [stepOp, checkPoints]
    split
    · exact ⟨hok, rfl⟩
    · exact ⟨hok, rfl⟩
  | addFunds req =>
    simp only [stepOp, addFunds]
    split
    · exact ⟨hok, rfl⟩
    · split
      · exact ⟨hok, rfl⟩
      · unfold creditUser
        split
        · exact ⟨hok, rfl⟩
        · exact ⟨hok, rfl⟩
  | purchase uid eid tt =>
    simp only [stepOp]
    rcases hu : findUser db uid with _ | u <;> rcases he : findEvent db eid with _ | e <;>
      simp only [purchaseTicket, hu, he]
    · exact ⟨hok, trivial⟩
    · exact ⟨hok, trivial⟩
    · exact ⟨hok, trivial⟩
    by_cases h1 : (chargedCost db uid e tt : Int) > u.points
    · rw [if_pos h1]; exact ⟨hok, rfl⟩
    rw [if_neg h1]
    by_cases h2 : tt = "VIP" ∧ e.vip_tickets ≤ 0
    · rw [if_pos h2]; exact ⟨hok, rfl⟩
    rw [if_neg h2]
    by_cases h3 : tt = "Regular" ∧ e.available_tickets ≤ 0
    · rw [if_pos h3]; exact ⟨hok, rfl⟩
    rw [if_neg h3]
    refine ⟨?_, applyPurchase_events_id db uid eid tt (chargedCost db uid e tt)⟩
    have hmem : e ∈ db.events := List.mem_of_find?_eq_some he
    have heid : e.id = eid := by
      have := List.find?_some he
      simpa using this
    intro ev' hmem'
    simp only [applyPurchase, List.mem_map] at hmem'
    obtain ⟨ev, hev, rfl⟩ := hmem'
    by_cases hevid : ev.id = eid
    · have hevE : ev = e := by
        apply List.inj_on_of_nodup_map hnd hev hmem
        simp [hevid, heid]
      rw [if_pos hevid, hevE]
      rcases hop with htt | htt
      · rw [if_pos htt]
        have hv : ¬ e.vip_tickets ≤ 0 := fun hle => h2 ⟨htt, hle⟩
        have := (hok e hmem).1
        have := (hok e hmem).2
        constructor <;> simp <;> omega
      · have htv : tt ≠ "VIP" := by rw [htt]; decide
        rw [if_neg htv]
        have hv : ¬ e.available_tickets ≤ 0 := fun hle => h3 ⟨htt, hle⟩
        have := (hok e hmem).1
        have := (hok e hmem).2
        constructor <;> simp <;> omega
    · rw [if_neg hevid]
      exact hok ev hev

/-- Inventory stays non-negative along any run of documented-tier
requests. -/
theorem runTrace_inventory (ops : List Op) : ∀ db : DB,
    (db.events.map (fun e => e.id)).Nodup → EventsOK db →
    (∀ op ∈ ops, GoodTT op) → EventsOK (runTrace db ops).2 := by
  induction ops with
  | nil => intro db _ hok _; exact hok
  | cons op ops ih =>
    intro db hnd hok hall
    have h := step_inventory db op hnd hok (hall op (by simp))
    have hnd' : ((stepOp db op).1.events.map (fun e => e.id)).Nodup := by
      rw [h.2]; exact hnd
    have := ih (stepOp db op).1 hnd' h.1 (fun o ho => hall o (by simp [ho]))
    simpa [runTrace] using this

/-- Counterexample to claim C5 as stated: from a state with non-negative
inventory, one purchase whose ticket type is the undocumented string
`"Premium"` succeeds — skipping both sold-out guards — and drives
`available_tickets` to −1. -/
theorem inventory_nonneg_claim_cex :
    EventsOK dbH ∧
    (runTrace dbH [Op.purchase 1 1 "Premium"]).1 =
      [(Op.purchase 1 1 "Premium", .resp (.purchased "Premium" 15))] ∧
    ¬ EventsOK (runTrace dbH [Op.purchase 1 1 "Premium"]).2 := by decide

/-- Claim C5 as amended: starting from a store state with distinct event
ids and non-negative inventory, every run whose purchase requests use
only the documented tiers `"VIP"`/`"Regular"` keeps both counters of
every event non-negative after every operation — a successful purchase
only decrements a counter its guard saw strictly positive, and no other
operation touches inventory. -/
theorem inventory_nonneg_valid_types (db0 : DB) (ops : List Op)
    (hnd : (db0.events.map (fun e => e.id)).Nodup)
    (h0 : EventsOK db0) (hops : ∀ op ∈ ops, GoodTT op) :
    EventsOK (runTrace db0 ops).2 :=
  runTrace_inventory ops db0 hnd h0 hops

/-- Witness for amended C5: a Regular and a VIP purchase, inventory
stays non-negative. -/
theorem inventory_nonneg_valid_types_witness :
    EventsOK (runTrace dbG [Op.purchase 1 1 "Regular", Op.purchase 1 1 "VIP"]).2 :=
  inventory_nonneg_valid_types dbG [Op.purchase 1 1 "Regular", Op.purchase 1 1 "VIP"]
    (by decide) (by decide) (by decide)

/-- `find?` commutes with an element-wise rewrite that preserves the
predicate. -/
theorem find_map_pres {α : Type} (p : α → Bool) (f : α → α)
    (hf : ∀ a, p (f a) = p a) (l : List α) :
    (l.map f).find? p = (l.find? p).map f := by
  induction l with
  | nil => rfl
  | cons a t ih =>
    cases hp : p a
    · simp [List.find?, hf, hp, ih]
    · simp [List.find?, hf, hp]

/-- A hit in the left part of an append is the hit of the whole list. -/
theorem find_append_some {α : Type} (p : α → Bool) {l1 : List α} (l2 : List α) {a : α}
    (h : l1.find? p = some a) : (l1 ++ l2).find? p = some a := by
  induction l1 with
  | nil => simp [List.find?] at h
  | cons b t ih =>
    cases hp : p b
    · simp only [List.find?, hp] at h
      simp only [List.cons_append, List.find?, hp]
      exact ih h
    · simp only [List.find?, hp] at h
      simp only [List.cons_append, List.find?, hp]
      exact h

/-- When the left part of an append has no hit, `find?` continues in the
right part. -/
theorem find_append_none {α : Type} (p : α → Bool) {l1 : List α} (l2 : List α)
    (h : l1.find? p = none) : (l1 ++ l2).find? p = l2.find? p := by
  induction l1 with
  | nil => rfl
  | cons b t ih =>
    cases hp : p b
    · simp only [List.find?, hp] at h
      simp only [List.cons_append, List.find?, hp]
      exact ih h
    · simp only [List.find?, hp] at h
      exact Option.noConfusion h

/-- The points a single request/outcome pair credits to user `u0`: a
successful `add_funds` naming `u0` in its `userid` field. -/
def credit1 (u0 : Nat) : Op × Outcome → Int
  | (.addFunds _, .resp (.addedFunds a t)) => if t = some u0 then a else 0
  | _ => 0

/-- The points a single request/outcome pair charges user `u0`: the price
of a successful purchase by `u0`. -/
def charge1 (u0 : Nat) : Op × Outcome → Int
  | (.purchase uid _ _, .resp (.purchased _ c)) => if uid = u0 then (c : Int) else 0
  | _ => 0

/-- Total successful `add_funds` credits to `u0` along a trace. -/
def creditsTo (u0 : Nat) (tr : List (Op × Outcome)) : Int :=
  (tr.map (credit1 u0)).sum

/-- Total charged purchase prices of `u0` along a trace. -/
def chargesTo (u0 : Nat) (tr : List (Op × Outcome)) : Int :=
  (tr.map (charge1 u0)).sum

/-- Running invariant for the ledger of user `u0`: every stored user id
is below the autoincrement counter, `u0` is too, and the (first) row with
id `u0` carries exactly the balance `bal`. -/
def PointsInv (u0 : Nat) (bal : Int) (db : DB) : Prop :=
  (∀ w ∈ db.users, w.id < db.nextId) ∧ u0 < db.nextId ∧
    ∃ u, findUser db u0 = some u ∧ u.points = bal


/-- Looking up `u0` after the `add_funds` update: the found row is the
old row, credited when and only when its id is the update target. -/
theorem findUser_creditUser (db : DB) (u0 t : Nat) (a : Int) (u : User)
    (hfu : findUser db u0 = some u) :
    findUser (creditUser db (some t) a) u0 =
      some (if u.id = t then { u with points := u.points + a } else u) := by
  show (db.users.map fun w =>
      if w.id = t then { w with points := w.points + a } else w).find?
      (fun w => w.id == u0) = _
  rw [find_map_pres _ _ ?_ db.users]
  · unfold findUser at hfu
    rw [hfu]
    rfl
  · intro w
    by_cases hid : w.id = t
    · rw [if_pos hid]
    · rw [if_neg hid]

/-- Looking up `u0` after the purchase debit: the found row is the old
row, debited when and only when its id is the buyer's. -/
theorem findUser_applyPurchase (db : DB) (u0 pid eid : Nat) (tt : String) (c : Nat) (u : User)
    (hfu : findUser db u0 = some u) :
    findUser (applyPurchase db pid eid tt c) u0 =
      some (if u.id = pid then { u with points := u.points - (c : Int) } else u) := by
  show (db.users.map fun w =>
      if w.id = pid then { w with points := w.points - (c : Int) } else w).find?
      (fun w => w.id == u0) = _
  rw [find_map_pres _ _ ?_ db.users]
  · unfold findUser at hfu
    rw [hfu]
    rfl
  · intro w
    by_cases hid : w.id = pid
    · rw [if_pos hid]
    · rw [if_neg hid]

/-- The `add_funds` update rewrites points only, so the id bound is
preserved. -/
theorem usersBound_creditUser (db : DB) (t : Nat) (a : Int)
    (hA : ∀ w ∈ db.users, w.id < db.nextId) :
    ∀ w ∈ (creditUser db (some t) a).users, w.id < (creditUser db (some t) a).nextId := by
  intro w hw
  simp only [creditUser, List.mem_map] at hw
  obtain ⟨w0, hw0, rfl⟩ := hw
  show (if w0.id = t then { w0 with points := w0.points + a } else w0).id < db.nextId
  by_cases hid : w0.id = t
  · rw [if_pos hid]
    exact hA w0 hw0
  · rw [if_neg hid]
    exact hA w0 hw0

/-- The purchase debit rewrites points only, so the id bound is
preserved. -/
theorem usersBound_applyPurchase (db : DB) (pid eid : Nat) (tt : String) (c : Nat)
    (hA : ∀ w ∈ db.users, w.id < db.nextId) :
    ∀ w ∈ (applyPurchase db pid eid tt c).users,
      w.id < (applyPurchase db pid eid tt c).nextId := by
  intro w hw
  simp only [applyPurchase, List.mem_map] at hw
  obtain ⟨w0, hw0, rfl⟩ := hw
  show (if w0.id = pid then { w0 with points := w0.points - (c : Int) } else w0).id < db.nextId
  by_cases hid : w0.id = pid
  · rw [if_pos hid]
    exact hA w0 hw0
  · rw [if_neg hid]
    exact hA w0 hw0

/-- One handler invocation moves the balance of `u0` by exactly the
credit minus the charge that its outcome reports for `u0`, and keeps the
balance non-negative. -/
theorem step_points (u0 : Nat) (db : DB) (op : Op) (bal : Int)
    (h : PointsInv u0 bal db) (hb : 0 ≤ bal) :
    PointsInv u0 (bal + credit1 u0 (op, (stepOp db op).2) - charge1 u0 (op, (stepOp db op).2))
      (stepOp db op).1 ∧
    0 ≤ bal + credit1 u0 (op, (stepOp db op).2) - charge1 u0 (op, (stepOp db op).2) := by
  obtain ⟨hA, hlt, u, hfu, hup⟩ := h
  have huid : u.id = u0 := by
    have := List.find?_some hfu
    simpa using this
  cases op with
  | register uname pw =>
    simp only [stepOp, register]
    split
    · simp only [credit1, charge1, add_zero, sub_zero]
      exact ⟨⟨hA, hlt, u, hfu, hup⟩, hb⟩
    · simp only [credit1, charge1, add_zero, sub_zero]
      refine ⟨⟨?_, Nat.lt_succ_of_lt hlt, u, ?_, hup⟩, hb⟩
      · intro w hw
        rcases List.mem_append.1 hw with hw | hw
        · exact Nat.lt_succ_of_lt (hA w hw)
        · simp only [List.mem_singleton] at hw
          rw [hw]
          exact Nat.lt_succ_self _
      · exact find_append_some _ _ hfu
  | checkPoints uid =>
    simp only [stepOp, checkPoints]
    split
    · simp only [credit1, charge1, add_zero, sub_zero]
      exact ⟨⟨hA, hlt, u, hfu, hup⟩, hb⟩
    · simp only [credit1, charge1, add_zero, sub_zero]
      exact ⟨⟨hA, hlt, u, hfu, hup⟩, hb⟩
  | addFunds req =>
    simp only [stepOp, addFunds]
    rcases ha : req.amount with _ | a <;> simp only [ha]
    · simp only [credit1, charge1, add_zero, sub_zero]
      exact ⟨⟨hA, hlt, u, hfu, hup⟩, hb⟩
    · by_cases hle : a ≤ 0
      · rw [if_pos hle]
        simp only [credit1, charge1, add_zero, sub_zero]
        exact ⟨⟨hA, hlt, u, hfu, hup⟩, hb⟩
      · rw [if_neg hle]
        rcases ht : req.userid with _ | t <;> simp only [ht]
        · simp only [creditUser, credit1, charge1]
          simp only [reduceCtorEq, if_false, add_zero, sub_zero]
          exact ⟨⟨hA, hlt, u, hfu, hup⟩, hb⟩
        · by_cases htu : t = u0
          · subst htu
            simp only [credit1, charge1, if_pos rfl, sub_zero]
            refine ⟨⟨usersBound_creditUser db t a hA, hlt, ?_⟩, by omega⟩
            refine ⟨{ u with points := u.points + a }, ?_, ?_⟩
            · rw [findUser_creditUser db t t a u hfu, if_pos huid]
            · show u.points + a = bal + a
              rw [hup]
          · simp only [credit1, charge1, Option.some.injEq, if_neg htu, add_zero, sub_zero]
            refine ⟨⟨usersBound_creditUser db t a hA, hlt, u, ?_, hup⟩, hb⟩
            rw [findUser_creditUser db u0 t a u hfu,
              if_neg (by rw [huid]; exact fun hc => htu hc.symm)]
  | purchase pid eid tt =>
    simp only [stepOp]
    rcases hpu : findUser db pid with _ | v <;> rcases he : findEvent db eid with _ | e <;>
      simp only [purchaseTicket, hpu, he]
    · simp only [credit1, charge1, add_zero, sub_zero]
      exact ⟨⟨hA, hlt, u, hfu, hup⟩, hb⟩
    · simp only [credit1, charge1, add_zero, sub_zero]
      exact ⟨⟨hA, hlt, u, hfu, hup⟩, hb⟩
    · simp only [credit1, charge1, add_zero, sub_zero]
      exact ⟨⟨hA, hlt, u, hfu, hup⟩, hb⟩
    by_cases h1 : (chargedCost db pid e tt : Int) > v.points
    · rw [if_pos h1]
      simp only [credit1, charge1, add_zero, sub_zero]
      exact ⟨⟨hA, hlt, u, hfu, hup⟩, hb⟩
    rw [if_neg h1]
    by_cases h2 : tt = "VIP" ∧ e.vip_tickets ≤ 0
    · rw [if_pos h2]
      simp only [credit1, charge1, add_zero, sub_zero]
      exact ⟨⟨hA, hlt, u, hfu, hup⟩, hb⟩
    rw [if_neg h2]
    by_cases h3 : tt = "Regular" ∧ e.available_tickets ≤ 0
    · rw [if_pos h3]
      simp only [credit1, charge1, add_zero, sub_zero]
      exact ⟨⟨hA, hlt, u, hfu, hup⟩, hb⟩
    rw [if_neg h3]
    by_cases hpid : pid = u0
    · have hvu : v = u := by
        rw [hpid] at hpu
        rw [hpu] at hfu
        exact Option.some.inj hfu
      have hcost : (chargedCost db pid e tt : Int) ≤ bal := by
        rw [← hup, ← hvu]
        omega
      simp only [credit1, charge1, if_pos hpid, zero_add, add_zero]
      refine ⟨⟨usersBound_applyPurchase db pid eid tt _ hA, hlt, ?_⟩, by omega⟩
      refine ⟨{ u with points := u.points - (chargedCost db pid e tt : Int) }, ?_, ?_⟩
      · rw [findUser_applyPurchase db u0 pid eid tt (chargedCost db pid e tt) u hfu,
          if_pos (by rw [huid]; exact hpid.symm)]
      · show u.points - (chargedCost db pid e tt : Int) = bal - (chargedCost db pid e tt : Int)
        rw [hup]
    · simp only [credit1, charge1, if_neg hpid, add_zero, sub_zero]
      refine ⟨⟨usersBound_applyPurchase db pid eid tt _ hA, hlt, u, ?_, hup⟩, hb⟩
      rw [findUser_applyPurchase db u0 pid eid tt (chargedCost db pid e tt) u hfu,
        if_neg (by rw [huid]; exact fun hc => hpid hc.symm)]

/-- Along any run, the balance of `u0` moves by exactly its credits
minus its charges and stays non-negative. -/
theorem runTrace_points (u0 : Nat) (ops : List Op) : ∀ (db : DB) (bal : Int),
    PointsInv u0 bal db → 0 ≤ bal →
    PointsInv u0 (bal + creditsTo u0 (runTrace db ops).1 - chargesTo u0 (runTrace db ops).1)
      (runTrace db ops).2 ∧
    0 ≤ bal + creditsTo u0 (runTrace db ops).1 - chargesTo u0 (runTrace db ops).1 := by
  induction ops with
  | nil =>
    intro db bal h hb
    simp only [runTrace, creditsTo, chargesTo, List.map_nil, List.sum_nil, add_zero, sub_zero]
    exact ⟨h, hb⟩
  | cons op ops ih =>
    intro db bal h hb
    have hstep := step_points u0 db op bal h hb
    have hrec := ih (stepOp db op).1 _ hstep.1 hstep.2
    simp only [runTrace, creditsTo, chargesTo, List.map_cons, List.sum_cons] at hrec ⊢
    set c1 := credit1 u0 (op, (stepOp db op).2)
    set k1 := charge1 u0 (op, (stepOp db op).2)
    set cs := ((runTrace (stepOp db op).1 ops).1.map (credit1 u0)).sum
    set ks := ((runTrace (stepOp db op).1 ops).1.map (charge1 u0)).sum
    have heq : bal + (c1 + cs) - (k1 + ks) = bal + c1 - k1 + cs - ks := by ring
    rw [heq]
    exact hrec

/-- An empty user table next to a stocked event, for the run witness. -/
def dbR : DB := { users := [], events := [eventG], purchases := [], nextId := 1 }

/-- Claim C4: after a successful registration — which creates the user
with the default 100 points — and any further request sequence, the
user's balance equals 100 plus the sum of the successful `add_funds`
credits for that user minus the sum of the prices actually charged by
that user's successful purchases, and it is never negative. -/
theorem points_accounting (db0 : DB) (uname pw : String) (ops : List Op)
    (hA : ∀ w ∈ db0.users, w.id < db0.nextId)
    (hfree : db0.users.any (fun w => w.username == uname) = false) :
    ∃ u, findUser (runTrace (register db0 uname pw).1 ops).2 db0.nextId = some u ∧
      u.points = 100 + creditsTo db0.nextId (runTrace (register db0 uname pw).1 ops).1
                     - chargesTo db0.nextId (runTrace (register db0 uname pw).1 ops).1 ∧
      0 ≤ u.points := by
  have hinv : PointsInv db0.nextId 100 (register db0 uname pw).1 := by
    unfold register
    rw [if_neg (by rw [hfree]; exact Bool.false_ne_true)]
    refine ⟨?_, Nat.lt_succ_self _, ?_⟩
    · intro w hw
      rcases List.mem_append.1 hw with hw | hw
      · exact Nat.lt_succ_of_lt (hA w hw)
      · simp only [List.mem_singleton] at hw
        rw [hw]
        exact Nat.lt_succ_self _
    · refine ⟨{ id := db0.nextId, username := uname, password := pw, points := 100 }, ?_, rfl⟩
      have hnone : db0.users.find? (fun w => w.id == db0.nextId) = none := by
        rw [List.find?_eq_none]
        intro w hw
        simp only [beq_iff_eq]
        exact Nat.ne_of_lt (hA w hw)
      show (db0.users ++
        [({ id := db0.nextId, username := uname, password := pw, points := 100 } : User)]).find?
          (fun w => w.id == db0.nextId) = _
      rw [find_append_none _ _ hnone]
      simp [List.find?]
  have h := runTrace_points db0.nextId ops (register db0 uname pw).1 100 hinv (by norm_num)
  obtain ⟨⟨_, _, u, hu, hup⟩, hpos⟩ := h
  exact ⟨u, hu, hup, by rw [hup]; exact hpos⟩

/-- Witness for C4: register, add 50, buy a 10-point Regular ticket; the
theorem applies and the ledger identity holds with the balance ending at
100 + 50 − 10 = 140. -/
theorem points_accounting_witness :
    (∃ u, findUser (runTrace (register dbR "rin" "pw").1
        [Op.addFunds { userid := some 1, amount := some 50 }, Op.purchase 1 1 "Regular"]).2
        dbR.nextId = some u ∧
      u.points = 100 + creditsTo dbR.nextId ((runTrace (register dbR "rin" "pw").1
          [Op.addFunds { userid := some 1, amount := some 50 }, Op.purchase 1 1 "Regular"]).1)
        - chargesTo dbR.nextId ((runTrace (register dbR "rin" "pw").1
          [Op.addFunds { userid := some 1, amount := some 50 }, Op.purchase 1 1 "Regular"]).1) ∧
      0 ≤ u.points) ∧
    (findUser (runTrace (register dbR "rin" "pw").1
        [Op.addFunds { userid := some 1, amount := some 50 }, Op.purchase 1 1 "Regular"]).2
        1).map (fun u => u.points) = some 140 :=
  ⟨points_accounting dbR "rin" "pw"
      [Op.addFunds { userid := some 1, amount := some 50 }, Op.purchase 1 1 "Regular"]
      (by decide) (by decide),
    by decide⟩
